import Mathlib

/-!
CarGrader lookup service: shallow embedding and verification.

This file embeds `src/app.py` (a Flask + SQLite read-only lookup service over
the `AllCars` table) in Lean 4 and settles the specification claims about it.

The data model is one table of `VehicleRecord` rows (`ModelYear` text,
`Make` text, `Model` text, `Score` and `Certainty` nullable decimals).
SQL values are modelled as `Option` (NULL = `none`); decimals as `ℚ`.
Each endpoint is a pure function of the database contents and the raw
query-string parameters; internal data-access failure (the `except` branch in
the Python handlers) is modelled by running the endpoint on `Except.error`.
-/

namespace CarGrader

/-! ## SQLite string primitives -/

/-- SQLite `TRIM(X)` removes the space character (0x20) from both ends. -/
def sqlTrim (s : String) : String :=
  ⟨((s.data.dropWhile (· = ' ')).reverse.dropWhile (· = ' ')).reverse⟩

/-- The whitespace characters skipped by SQLite's text-to-integer conversion. -/
def isSqlSpace (c : Char) : Bool :=
  c = ' ' || c = '\t' || c = '\n' || c = '\x0b' || c = '\x0c' || c = '\r'

/-- Numeric value of a list of decimal digit characters (most significant first). -/
def natOfDigits (l : List Char) : Nat :=
  l.foldl (fun a c => a * 10 + (c.toNat - '0'.toNat)) 0

/-- SQLite `CAST(X AS INTEGER)` for a text value `X`: leading whitespace is
skipped, then the longest prefix that looks like an (optionally signed)
integer is converted; if there is no such prefix the result is `0`.
Note the result is never NULL for a non-NULL text argument. -/
def sqlCastIntList (l : List Char) : Int :=
  let l₁ := l.dropWhile isSqlSpace
  match l₁ with
  | '-' :: rest => -(natOfDigits (rest.takeWhile Char.isDigit) : Int)
  | '+' :: rest => (natOfDigits (rest.takeWhile Char.isDigit) : Int)
  | _ => (natOfDigits (l₁.takeWhile Char.isDigit) : Int)

/-- SQLite `CAST(X AS INTEGER)` on a text value. -/
def sqlCastInt (s : String) : Int := sqlCastIntList s.data

/-- Flask's `request.args.get(name, type=int)` applies Python `int(...)` to the
raw parameter text and yields the default `None` when conversion fails:
surrounding whitespace is stripped, then an optional sign followed by at
least one decimal digit is required. -/
def pyToInt (s : String) : Option Int :=
  let l := ((s.data.dropWhile isSqlSpace).reverse.dropWhile isSqlSpace).reverse
  match l with
  | '-' :: rest =>
      if rest ≠ [] && rest.all Char.isDigit then some (-(natOfDigits rest : Int)) else none
  | '+' :: rest =>
      if rest ≠ [] && rest.all Char.isDigit then some (natOfDigits rest : Int) else none
  | _ => if l ≠ [] && l.all Char.isDigit then some (natOfDigits l : Int) else none

/-! ## Data model -/

/-- One row of the `AllCars` table. NULLable columns are `Option`. -/
structure Row where
  ModelYear : Option String
  Make : Option String
  Model : Option String
  Score : Option ℚ
  Certainty : Option ℚ
deriving DecidableEq, Repr

/-- The filter `Score IS NOT NULL AND Certainty IS NOT NULL`: the gradeable subset. -/
def gradeable (r : Row) : Bool := r.Score.isSome && r.Certainty.isSome

/-- The value `CAST(TRIM(ModelYear) AS INTEGER)` as a SQL value: NULL in, NULL out;
a non-NULL text always casts to an integer (0 when no numeric prefix). -/
def castTrimYear : Option String → Option Int
  | none => none
  | some s => some (sqlCastInt (sqlTrim s))

/-- SQLite `ROUND(q, 1)`: round to one decimal, half away from zero
(the exact tie behavior on binary doubles is not contractual per the spec;
source values are not exact half-decimals). -/
def roundHalfAway (q : ℚ) : Int := if 0 ≤ q then ⌊q + 1/2⌋ else -⌊-q + 1/2⌋

/-- Round a decimal to one decimal place, as done by `ROUND(x, 1)`. -/
def round1 (q : ℚ) : ℚ := (roundHalfAway (q * 10) : ℚ) / 10

/-! ## Orderings used by `ORDER BY`

SQLite orders NULL before every non-NULL value in ascending order
(hence after every value in descending order); text uses the BINARY
collation: byte-wise comparison, which on UTF-8 agrees with code-point
order. -/

/-- Byte-wise (code-point) lexicographic `≤` on text, the BINARY collation. -/
def strLeList : List Char → List Char → Bool
  | [], _ => true
  | _ :: _, [] => false
  | a :: as, b :: bs => if a.toNat = b.toNat then strLeList as bs else decide (a.toNat < b.toNat)

/-- BINARY-collation `≤` on strings. -/
def strLe (s t : String) : Bool := strLeList s.data t.data

/-- Descending comparison on the `Y` column (`ORDER BY Y DESC`),
with NULL last. -/
def optIntDescLe : Option Int → Option Int → Bool
  | none, none => true
  | none, some _ => false
  | some _, none => true
  | some a, some b => decide (b ≤ a)

/-- Ascending comparison on a nullable text column (`ORDER BY Make` /
`ORDER BY Model`), with NULL first. -/
def optStrLe : Option String → Option String → Bool
  | none, _ => true
  | some _, none => false
  | some a, some b => strLe a b

/-- Relation for `ORDER BY Y DESC`, as a decidable relation for sorting. -/
def yDescRel (a b : Option Int) : Prop := optIntDescLe a b = true

instance : DecidableRel yDescRel :=
  fun a b => instDecidableEqBool (optIntDescLe a b) true

/-- Relation for `ORDER BY <text column>` (ascending), decidable, for sorting. -/
def textAscRel (a b : Option String) : Prop := optStrLe a b = true

instance : DecidableRel textAscRel :=
  fun a b => instDecidableEqBool (optStrLe a b) true

/-! ## The four data queries (`src/app.py`) -/

/-- The `WHERE` clause of `/api/years`:
`Score IS NOT NULL AND Certainty IS NOT NULL AND ModelYear IS NOT NULL
AND TRIM(ModelYear) <> ''`. -/
def yearsWhere (r : Row) : Bool :=
  gradeable r &&
    (match r.ModelYear with
     | none => false
     | some s => decide (sqlTrim s ≠ ""))

/-- The result column `Y` of the `/api/years` query:
`SELECT DISTINCT CAST(TRIM(ModelYear) AS INTEGER) AS Y ... ORDER BY Y DESC`.
`DISTINCT` is deduplication; `ORDER BY Y DESC` sorts the distinct values
(on a duplicate-free list the sorted result is unique, so the choice of
sorting algorithm is immaterial). -/
def yearsSelect (db : List Row) : List (Option Int) :=
  List.insertionSort yDescRel
    (((db.filter yearsWhere).map (fun r => castTrimYear r.ModelYear)).dedup)

/-- The Python body `[r["Y"] for r in rows if r["Y"] is not None]`. -/
def yearsBody (db : List Row) : List Int := (yearsSelect db).filterMap id

/-- The `WHERE` clause of `/api/makes`:
`CAST(TRIM(ModelYear) AS INTEGER) = ? AND Score IS NOT NULL AND Certainty IS NOT NULL`. -/
def makesWhere (y : Int) (r : Row) : Bool :=
  castTrimYear r.ModelYear = some y && gradeable r

/-- Query `SELECT DISTINCT Make ... ORDER BY Make` for `/api/makes`. -/
def makesQuery (db : List Row) (y : Int) : List (Option String) :=
  List.insertionSort textAscRel (((db.filter (makesWhere y)).map Row.Make).dedup)

/-- The `WHERE` clause of `/api/models`: year cast equal, `Make = ?`,
scores non-NULL. -/
def modelsWhere (y : Int) (mk : String) (r : Row) : Bool :=
  castTrimYear r.ModelYear = some y && r.Make = some mk && gradeable r

/-- Query `SELECT DISTINCT Model ... ORDER BY Model` for `/api/models`. -/
def modelsQuery (db : List Row) (y : Int) (mk : String) : List (Option String) :=
  List.insertionSort textAscRel (((db.filter (modelsWhere y mk)).map Row.Model).dedup)

/-- The `WHERE` clause of `/api/grade`: year cast equal, `Make = ?`,
`Model = ?`, scores non-NULL. -/
def gradeWhere (y : Int) (mk md : String) (r : Row) : Bool :=
  castTrimYear r.ModelYear = some y && r.Make = some mk && r.Model = some md && gradeable r

/-- Query `SELECT ROUND(Score,1) AS ScoreRounded, ROUND(Certainty,1) AS CertaintyRounded`,
... LIMIT 1` followed by `fetchone()`: the first physical matching row, its two
rounded columns (`ROUND` of NULL is NULL). -/
def gradeQuery (db : List Row) (y : Int) (mk md : String) : Option (Option ℚ × Option ℚ) :=
  (db.find? (gradeWhere y mk md)).map (fun r => (r.Score.map round1, r.Certainty.map round1))

/-! ## HTTP endpoints

Each endpoint takes the data source as `Except Unit (List Row)`:
`Except.error ()` stands for an internal data-access failure (any exception
raised inside the handler's `try` block — connection failure, malformed
schema, query exception), which sends the handler to its `except` branch.
Raw query parameters are `Option String` (`none` = absent). Responses are
`(body, HTTP status)`. -/

/-- The data source as seen by one request. -/
abbrev Db := Except Unit (List Row)

/-- Handler for `/api/years`. -/
def yearsEndpoint (dbr : Db) : List Int × Nat :=
  match dbr with
  | .ok db => (yearsBody db, 200)
  | .error _ => ([], 500)

/-- Handler for `/api/makes`: `year` parsed with `type=int`; `None` short-circuits
to an empty array before the `try` block. -/
def makesEndpoint (dbr : Db) (yearP : Option String) : List (Option String) × Nat :=
  match yearP.bind pyToInt with
  | none => ([], 200)
  | some y =>
      match dbr with
      | .ok db => (makesQuery db y, 200)
      | .error _ => ([], 500)

/-- Handler for `/api/models`: `if year is None or not make` short-circuits to an
empty array before the `try` block (`not make` is true exactly for an absent
or empty-string make — no trimming). -/
def modelsEndpoint (dbr : Db) (yearP makeP : Option String) : List (Option String) × Nat :=
  match yearP.bind pyToInt, makeP with
  | some y, some mk =>
      if mk = "" then ([], 200)
      else
        match dbr with
        | .ok db => (modelsQuery db y mk, 200)
        | .error _ => ([], 500)
  | _, _ => ([], 200)

/-- Body of an `/api/grade` response. -/
inductive GradeResp where
  /-- Body `{"error": "Missing params"}`. -/
  | missingParams
  /-- Body `{"error": "Not found"}`. -/
  | notFound
  /-- Body `{"error": "Server error"}`. -/
  | serverError
  /-- Body `{"year": ..., "make": ..., "model": ..., "score": ..., "certainty": ...}`;
  the score and certainty fields are the Python
  `float(row[...]) if row[...] is not None else None` values. -/
  | ok (year : Int) (make model : String) (score certainty : Option ℚ)
deriving DecidableEq, Repr

/-- Handler for `/api/grade`: `if year is None or not make or not model` gives 400
before the `try` block; otherwise the lookup runs, `404` when `fetchone()`
returns no row, `500` from the `except` branch. -/
def gradeEndpoint (dbr : Db) (yearP makeP modelP : Option String) : GradeResp × Nat :=
  match yearP.bind pyToInt, makeP, modelP with
  | some y, some mk, some md =>
      if mk = "" ∨ md = "" then (.missingParams, 400)
      else
        match dbr with
        | .error _ => (.serverError, 500)
        | .ok db =>
            match gradeQuery db y mk md with
            | none => (.notFound, 404)
            | some (sc, ct) => (.ok y mk md sc ct, 200)
  | _, _, _ => (.missingParams, 400)

/-! ## Requests as state transformers (for the read-only claim)

The connection is opened with `mode=ro` and every SQL statement in the file is
a `SELECT`, so executing a request leaves the table contents unchanged; the
state-passing wrapper returns the resulting database alongside the response. -/

/-- One incoming API request with its raw parameters. -/
inductive Request where
  | years
  | makes (yearP : Option String)
  | models (yearP makeP : Option String)
  | grade (yearP makeP modelP : Option String)
deriving DecidableEq, Repr

/-- A response from any of the four endpoints. -/
inductive Resp where
  | ints : List Int × Nat → Resp
  | strs : List (Option String) × Nat → Resp
  | grd : GradeResp × Nat → Resp
deriving DecidableEq, Repr

/-- Dispatch a request to its handler. -/
def handle : Request → Db → Resp
  | .years, dbr => .ints (yearsEndpoint dbr)
  | .makes yP, dbr => .strs (makesEndpoint dbr yP)
  | .models yP mkP, dbr => .strs (modelsEndpoint dbr yP mkP)
  | .grade yP mkP mdP, dbr => .grd (gradeEndpoint dbr yP mkP mdP)

/-- Run one request against the data source and return the response together
with the data source contents after the request (unchanged: read-only mode,
`SELECT`-only statements). -/
def runRequest (req : Request) (db : List Row) : Resp × List Row :=
  (handle req (.ok db), db)

/-! ## The spec's year-parsing predicate

Following the spec's words (for comparison with the source's
`CAST(TRIM(...))` semantics): "the year-filtering predicate parses the stored
year text by trimming whitespace and converting to an integer; records whose
year text is absent, empty after trimming, or non-numeric are excluded". -/

/-- Strict integer conversion: an optional sign followed by at least one
decimal digit and nothing else; fails otherwise. -/
def strictIntOfList : List Char → Option Int
  | '-' :: rest =>
      if rest ≠ [] && rest.all Char.isDigit then some (-(natOfDigits rest : Int)) else none
  | '+' :: rest =>
      if rest ≠ [] && rest.all Char.isDigit then some (natOfDigits rest : Int) else none
  | l => if l ≠ [] && l.all Char.isDigit then some (natOfDigits l : Int) else none

/-- The spec's parsed year of a record: trim, then strict conversion;
`none` when the year text is absent, empty after trimming, or non-numeric. -/
def specYearOf (r : Row) : Option Int :=
  r.ModelYear.bind (fun s => strictIntOfList (sqlTrim s).data)

/-! ## Concrete example databases -/

/-- A gradeable record with non-numeric year text (the spec's
`ModelYear="unknown"` example). -/
def rowUnknown : Row :=
  { ModelYear := some "unknown", Make := some "Ford", Model := some "Pinto",
    Score := some (15/2), Certainty := some 3 }

/-- A database holding only `rowUnknown`. -/
def exDbUnknown : List Row := [rowUnknown]

/-- A gradeable record whose `Make` is a single space. -/
def rowSpaceMake : Row :=
  { ModelYear := some "2018", Make := some " ", Model := some "Coupe",
    Score := some 1, Certainty := some 2 }

/-- A database holding only `rowSpaceMake`. -/
def exDbSpace : List Row := [rowSpaceMake]

/-- The spec's worked example record:
`(ModelYear=" 2018 ", Make="Honda", Model="Civic", Score=7.83, Certainty=4.26)`. -/
def rowCivic : Row :=
  { ModelYear := some " 2018 ", Make := some "Honda", Model := some "Civic",
    Score := some (783/100), Certainty := some (426/100) }

/-- A database holding only `rowCivic`. -/
def exDbCivic : List Row := [rowCivic]

/-! ## Order lemmas -/

theorem strLeList_total : ∀ a b, strLeList a b = true ∨ strLeList b a = true
  | [], _ => Or.inl rfl
  | _ :: _, [] => Or.inr rfl
  | a :: as, b :: bs => by
    by_cases h : a.toNat = b.toNat
    · rcases strLeList_total as bs with h' | h'
      · left
        show (if a.toNat = b.toNat then strLeList as bs else decide (a.toNat < b.toNat)) = true
        rw [if_pos h]
        exact h'
      · right
        show (if b.toNat = a.toNat then strLeList bs as else decide (b.toNat < a.toNat)) = true
        rw [if_pos h.symm]
        exact h'
    · by_cases hlt : a.toNat < b.toNat
      · left
        show (if a.toNat = b.toNat then strLeList as bs else decide (a.toNat < b.toNat)) = true
        rw [if_neg h]
        exact decide_eq_true hlt
      · right
        show (if b.toNat = a.toNat then strLeList bs as else decide (b.toNat < a.toNat)) = true
        rw [if_neg (fun hh : b.toNat = a.toNat => h hh.symm)]
        exact decide_eq_true (by omega)

theorem strLeList_trans :
    ∀ a b c, strLeList a b = true → strLeList b c = true → strLeList a c = true
  | [], _, _, _, _ => rfl
  | _ :: _, [], _, h, _ => Bool.noConfusion h
  | _ :: _, _ :: _, [], _, h => Bool.noConfusion h
  | a :: as, b :: bs, c :: cs, h1, h2 => by
    have h1' : (if a.toNat = b.toNat then strLeList as bs else decide (a.toNat < b.toNat)) = true := h1
    have h2' : (if b.toNat = c.toNat then strLeList bs cs else decide (b.toNat < c.toNat)) = true := h2
    show (if a.toNat = c.toNat then strLeList as cs else decide (a.toNat < c.toNat)) = true
    by_cases hab : a.toNat = b.toNat <;> by_cases hbc : b.toNat = c.toNat
    · rw [if_pos hab] at h1'
      rw [if_pos hbc] at h2'
      rw [if_pos (hab.trans hbc)]
      exact strLeList_trans as bs cs h1' h2'
    · rw [if_pos hab] at h1'
      rw [if_neg hbc] at h2'
      have hb := of_decide_eq_true h2'
      rw [if_neg (by omega)]
      exact decide_eq_true (by omega)
    · rw [if_neg hab] at h1'
      rw [if_pos hbc] at h2'
      have ha := of_decide_eq_true h1'
      rw [if_neg (by omega)]
      exact decide_eq_true (by omega)
    · rw [if_neg hab] at h1'
      rw [if_neg hbc] at h2'
      have ha := of_decide_eq_true h1'
      have hb := of_decide_eq_true h2'
      rw [if_neg (by omega)]
      exact decide_eq_true (by omega)

instance : IsTotal (Option String) textAscRel where
  total a b := by
    cases a <;> cases b
    · exact Or.inl rfl
    · exact Or.inl rfl
    · exact Or.inr rfl
    · exact strLeList_total _ _

instance : IsTrans (Option String) textAscRel where
  trans a b c h1 h2 := by
    cases a <;> cases b <;> cases c
    any_goals exact rfl
    any_goals exact Bool.noConfusion h1
    any_goals exact Bool.noConfusion h2
    exact strLeList_trans _ _ _ h1 h2

instance : IsTotal (Option Int) yDescRel where
  total a b := by
    cases a with
    | none =>
        cases b with
        | none => exact Or.inl rfl
        | some y => exact Or.inr rfl
    | some x =>
        cases b with
        | none => exact Or.inl rfl
        | some y =>
            rcases Int.le_total y x with h | h
            · exact Or.inl (decide_eq_true h)
            · exact Or.inr (decide_eq_true h)

instance : IsTrans (Option Int) yDescRel where
  trans a b c h1 h2 := by
    cases a <;> cases b <;> cases c
    any_goals exact rfl
    any_goals exact Bool.noConfusion h1
    any_goals exact Bool.noConfusion h2
    exact decide_eq_true (le_trans (of_decide_eq_true h2) (of_decide_eq_true h1))

/-! ## Query characterization lemmas -/

theorem mem_yearsBody {db : List Row} {y : Int} :
    y ∈ yearsBody db ↔ ∃ r ∈ db, yearsWhere r = true ∧ castTrimYear r.ModelYear = some y := by
  unfold yearsBody yearsSelect
  rw [List.mem_filterMap]
  constructor
  · rintro ⟨o, ho, hid⟩
    rw [(List.perm_insertionSort _ _).mem_iff, List.mem_dedup, List.mem_map] at ho
    obtain ⟨r, hr, hco⟩ := ho
    rw [List.mem_filter] at hr
    exact ⟨r, hr.1, hr.2, by rw [hco]; exact hid⟩
  · rintro ⟨r, hr, hw, hc⟩
    refine ⟨some y, ?_, rfl⟩
    rw [(List.perm_insertionSort _ _).mem_iff, List.mem_dedup, List.mem_map]
    exact ⟨r, List.mem_filter.2 ⟨hr, hw⟩, hc⟩

theorem mem_makesQuery {db : List Row} {y : Int} {m : Option String} :
    m ∈ makesQuery db y ↔ ∃ r ∈ db, makesWhere y r = true ∧ r.Make = m := by
  unfold makesQuery
  rw [(List.perm_insertionSort _ _).mem_iff, List.mem_dedup, List.mem_map]
  constructor
  · rintro ⟨r, hr, hm⟩
    rw [List.mem_filter] at hr
    exact ⟨r, hr.1, hr.2, hm⟩
  · rintro ⟨r, hr, hw, hm⟩
    exact ⟨r, List.mem_filter.2 ⟨hr, hw⟩, hm⟩

theorem mem_modelsQuery {db : List Row} {y : Int} {mk : String} {m : Option String} :
    m ∈ modelsQuery db y mk ↔ ∃ r ∈ db, modelsWhere y mk r = true ∧ r.Model = m := by
  unfold modelsQuery
  rw [(List.perm_insertionSort _ _).mem_iff, List.mem_dedup, List.mem_map]
  constructor
  · rintro ⟨r, hr, hm⟩
    rw [List.mem_filter] at hr
    exact ⟨r, hr.1, hr.2, hm⟩
  · rintro ⟨r, hr, hw, hm⟩
    exact ⟨r, List.mem_filter.2 ⟨hr, hw⟩, hm⟩

theorem yearsSelect_pairwise (db : List Row) :
    (yearsSelect db).Pairwise (fun a b => yDescRel a b ∧ a ≠ b) := by
  have hs : (yearsSelect db).Pairwise yDescRel :=
    List.sorted_insertionSort yDescRel _
  have hn : (yearsSelect db).Nodup :=
    ((List.perm_insertionSort yDescRel _).nodup_iff).2 (List.nodup_dedup _)
  exact hs.and hn

theorem yearsBody_pairwise (db : List Row) :
    (yearsBody db).Pairwise (fun a b : Int => b < a) := by
  unfold yearsBody
  rw [List.pairwise_filterMap]
  refine (yearsSelect_pairwise db).imp ?_
  rintro a b ⟨hle, hne⟩ x hx y hy
  simp only [id_eq, Option.mem_def] at hx hy
  subst hx
  subst hy
  have hyx : y ≤ x := of_decide_eq_true hle
  have hne' : x ≠ y := fun he => hne (by rw [he])
  omega

theorem makesQuery_pairwise (db : List Row) (y : Int) :
    (makesQuery db y).Pairwise (fun a b => optStrLe a b = true ∧ a ≠ b) := by
  have hs : (makesQuery db y).Pairwise textAscRel :=
    List.sorted_insertionSort textAscRel _
  have hn : (makesQuery db y).Nodup :=
    ((List.perm_insertionSort textAscRel _).nodup_iff).2 (List.nodup_dedup _)
  exact hs.and hn

theorem modelsQuery_pairwise (db : List Row) (y : Int) (mk : String) :
    (modelsQuery db y mk).Pairwise (fun a b => optStrLe a b = true ∧ a ≠ b) := by
  have hs : (modelsQuery db y mk).Pairwise textAscRel :=
    List.sorted_insertionSort textAscRel _
  have hn : (modelsQuery db y mk).Nodup :=
    ((List.perm_insertionSort textAscRel _).nodup_iff).2 (List.nodup_dedup _)
  exact hs.and hn

/-- The call `fetchone()` after `LIMIT 1` returns the first physical match: if the rows
before `r` all fail the predicate and `r` satisfies it, `find?` returns `r`. -/
theorem find?_first {p : Row → Bool} {l₁ l₂ : List Row} {r : Row}
    (h1 : ∀ r' ∈ l₁, p r' = false) (h2 : p r = true) :
    List.find? p (l₁ ++ r :: l₂) = some r := by
  rw [List.find?_append]
  have hn : List.find? p l₁ = none :=
    List.find?_eq_none.2 (fun x hx => by simp [h1 x hx])
  rw [hn, List.find?_cons_of_pos _ h2]
  rfl

/-! ## Endpoint reduction lemmas -/

theorem makesEndpoint_eq_invalid {yP : Option String} (dbr : Db)
    (hy : yP.bind pyToInt = none) : makesEndpoint dbr yP = ([], 200) := by
  unfold makesEndpoint
  rw [hy]

theorem makesEndpoint_eq_valid {yP : Option String} {y : Int} (dbr : Db)
    (hy : yP.bind pyToInt = some y) :
    makesEndpoint dbr yP =
      match dbr with
      | .ok db => (makesQuery db y, 200)
      | .error _ => ([], 500) := by
  unfold makesEndpoint
  rw [hy]

theorem modelsEndpoint_eq_invalid {yP mkP : Option String} (dbr : Db)
    (h : yP.bind pyToInt = none ∨ mkP = none ∨ mkP = some "") :
    modelsEndpoint dbr yP mkP = ([], 200) := by
  unfold modelsEndpoint
  rcases hy : yP.bind pyToInt with _ | y
  · cases mkP <;> rfl
  · rcases h with h | h | h
    · rw [hy] at h; cases h
    · rw [h]
    · rw [h]
      show (if ("" : String) = "" then (([] : List (Option String)), 200) else _) = _
      rw [if_pos rfl]

theorem modelsEndpoint_eq_valid {yP mkP : Option String} {y : Int} {mk : String} (dbr : Db)
    (hy : yP.bind pyToInt = some y) (hmk : mkP = some mk) (hne : mk ≠ "") :
    modelsEndpoint dbr yP mkP =
      match dbr with
      | .ok db => (modelsQuery db y mk, 200)
      | .error _ => ([], 500) := by
  unfold modelsEndpoint
  rw [hy, hmk]
  show (if mk = "" then (([] : List (Option String)), 200) else _) = _
  rw [if_neg hne]

theorem gradeEndpoint_eq_parse_none {yP mkP mdP : Option String} (dbr : Db)
    (hy : yP.bind pyToInt = none) :
    gradeEndpoint dbr yP mkP mdP = (.missingParams, 400) := by
  unfold gradeEndpoint
  rw [hy]

theorem gradeEndpoint_eq_falsy {yP mkP mdP : Option String} {y : Int} (dbr : Db)
    (hy : yP.bind pyToInt = some y)
    (h : mkP = none ∨ mkP = some "" ∨ mdP = none ∨ mdP = some "") :
    gradeEndpoint dbr yP mkP mdP = (.missingParams, 400) := by
  unfold gradeEndpoint
  rw [hy]
  rcases h with h | h | h | h
  · rw [h]
  · rw [h]
    cases mdP with
    | none => rfl
    | some md =>
        show (if ("" : String) = "" ∨ md = "" then ((GradeResp.missingParams), 400) else _) = _
        rw [if_pos (Or.inl rfl)]
  · rw [h]; cases mkP <;> rfl
  · rw [h]
    cases mkP with
    | none => rfl
    | some mk =>
        show (if mk = "" ∨ ("" : String) = "" then ((GradeResp.missingParams), 400) else _) = _
        rw [if_pos (Or.inr rfl)]

theorem gradeEndpoint_eq_valid {yP mkP mdP : Option String} {y : Int} {mk md : String}
    (dbr : Db) (hy : yP.bind pyToInt = some y) (hmk : mkP = some mk) (hmd : mdP = some md)
    (hne1 : mk ≠ "") (hne2 : md ≠ "") :
    gradeEndpoint dbr yP mkP mdP =
      match dbr with
      | .error _ => (.serverError, 500)
      | .ok db =>
          match gradeQuery db y mk md with
          | none => (.notFound, 404)
          | some (sc, ct) => (.ok y mk md sc ct, 200) := by
  unfold gradeEndpoint
  rw [hy, hmk, hmd]
  show (if mk = "" ∨ md = "" then ((GradeResp.missingParams), 400) else _) = _
  rw [if_neg (not_or.2 ⟨hne1, hne2⟩)]

/-! ## WHERE-clause characterizations -/

theorem yearsWhere_iff {r : Row} :
    yearsWhere r = true ↔ gradeable r = true ∧ ∃ s, r.ModelYear = some s ∧ sqlTrim s ≠ "" := by
  cases h : r.ModelYear <;>
    simp [yearsWhere, h, Bool.and_eq_true]

theorem makesWhere_iff {y : Int} {r : Row} :
    makesWhere y r = true ↔
      castTrimYear r.ModelYear = some y ∧ gradeable r = true := by
  simp [makesWhere, Bool.and_eq_true]

theorem modelsWhere_iff {y : Int} {mk : String} {r : Row} :
    modelsWhere y mk r = true ↔
      castTrimYear r.ModelYear = some y ∧ r.Make = some mk ∧ gradeable r = true := by
  simp [modelsWhere, Bool.and_eq_true, and_assoc]

theorem gradeWhere_iff {y : Int} {mk md : String} {r : Row} :
    gradeWhere y mk md r = true ↔
      castTrimYear r.ModelYear = some y ∧ r.Make = some mk ∧ r.Model = some md
        ∧ gradeable r = true := by
  simp [gradeWhere, Bool.and_eq_true, and_assoc]

theorem gradeWhere_gradeable {y : Int} {mk md : String} {r : Row}
    (h : gradeWhere y mk md r = true) :
    ∃ sv cv : ℚ, r.Score = some sv ∧ r.Certainty = some cv := by
  have hg : gradeable r = true := (gradeWhere_iff.1 h).2.2.2
  unfold gradeable at hg
  simp only [Bool.and_eq_true, Option.isSome_iff_exists] at hg
  obtain ⟨⟨sv, hsv⟩, cv, hcv⟩ := hg
  exact ⟨sv, cv, hsv, hcv⟩

theorem gradeQuery_eq_none_iff {db : List Row} {y : Int} {mk md : String} :
    gradeQuery db y mk md = none ↔ ∀ r ∈ db, gradeWhere y mk md r = false := by
  unfold gradeQuery
  rw [Option.map_eq_none', List.find?_eq_none]
  simp [Bool.not_eq_true]

theorem gradeQuery_eq_of_find? {db : List Row} {y : Int} {mk md : String} {r : Row}
    (hf : db.find? (gradeWhere y mk md) = some r) :
    gradeQuery db y mk md = some (r.Score.map round1, r.Certainty.map round1) := by
  unfold gradeQuery
  rw [hf]
  rfl

theorem gradeQuery_isSome_parts {db : List Row} {y : Int} {mk md : String} {sc ct : Option ℚ}
    (h : gradeQuery db y mk md = some (sc, ct)) : sc.isSome = true ∧ ct.isSome = true := by
  unfold gradeQuery at h
  rw [Option.map_eq_some'] at h
  obtain ⟨r, hf, hr⟩ := h
  obtain ⟨sv, cv, hsv, hcv⟩ := gradeWhere_gradeable (List.find?_some hf)
  rw [Prod.mk.injEq] at hr
  obtain ⟨h1, h2⟩ := hr
  constructor
  · rw [← h1, hsv]
    rfl
  · rw [← h2, hcv]
    rfl

/-! ## Claim theorems -/

/-- Claim C1 (amended): How the code really treats year text: a record whose
`ModelYear` is absent (SQL NULL) is excluded from the `years` query and fails
every year-scoped `WHERE` clause; a record whose `ModelYear` is empty after
trimming is excluded from the `years` query; but a record with *non-numeric*
year text is NOT excluded — year matching is `CAST(TRIM(ModelYear) AS
INTEGER)`, which converts non-numeric text to its longest numeric prefix (0
when there is none), so such a record matches the year-scoped queries at the
cast value. No case raises an error (the predicates are total). -/
theorem c1_year_text_handling :
    ∀ (r : Row) (y : Int) (mk md : String) (s : String),
      (r.ModelYear = none →
        yearsWhere r = false ∧ makesWhere y r = false ∧ modelsWhere y mk r = false
          ∧ gradeWhere y mk md r = false)
      ∧ (r.ModelYear = some s → sqlTrim s = "" → yearsWhere r = false)
      ∧ (r.ModelYear = some s →
          (gradeWhere y mk md r = true ↔
            (sqlCastInt (sqlTrim s) = y ∧ r.Make = some mk ∧ r.Model = some md
              ∧ gradeable r = true))) := by
  intro r y mk md s
  refine ⟨fun h => ⟨?_, ?_, ?_, ?_⟩, fun h ht => ?_, fun h => ?_⟩
  · simp [yearsWhere, h]
  · simp [makesWhere, castTrimYear, h]
  · simp [modelsWhere, castTrimYear, h]
  · simp [gradeWhere, castTrimYear, h]
  · simp [yearsWhere, h, ht]
  · simp [gradeWhere, castTrimYear, h, Bool.and_eq_true, and_assoc]

/-- Witness for C1: the third clause of `c1_year_text_handling`, instantiated
at the `ModelYear="unknown"` record, its hypothesis discharged by `rfl`. -/
theorem c1_witness :
    gradeWhere 0 "Ford" "Pinto" rowUnknown = true ↔
      (sqlCastInt (sqlTrim "unknown") = 0 ∧ rowUnknown.Make = some "Ford"
        ∧ rowUnknown.Model = some "Pinto" ∧ gradeable rowUnknown = true) :=
  (c1_year_text_handling rowUnknown 0 "Ford" "Pinto" "unknown").2.2 rfl

/-- Claim C1 counterexample: The claim says a gradeable record with non-numeric
year text (`ModelYear="unknown"`) is excluded from ListYears and matches no
queried year. On a database holding exactly that record, ListYears in fact
returns `[0]` (not `[]`), and `GetGrade(0,"Ford","Pinto")` finds the record
(status 200, not a 404 NotFound). -/
theorem c1_cex_unknown_included :
    yearsBody exDbUnknown = [0] ∧ yearsBody exDbUnknown ≠ []
      ∧ (gradeEndpoint (.ok exDbUnknown) (some "0") (some "Ford") (some "Pinto")).2 = 200
      ∧ (gradeEndpoint (.ok exDbUnknown) (some "0") (some "Ford") (some "Pinto")).1
          ≠ GradeResp.notFound :=
  ⟨by decide, by decide, by decide, by decide⟩

/-- Claim C2 (amended): ListYears returns exactly the set of integers `y` such
that some gradeable record has year text present, non-empty after trimming,
whose trimmed text SQLite-casts to `y` (longest numeric prefix, 0 if none) —
and the returned sequence is strictly descending (hence duplicate-free). -/
theorem c2_years_exact_sorted :
    ∀ db : List Row,
      (∀ y : Int, y ∈ yearsBody db ↔
        ∃ r ∈ db, gradeable r = true ∧
          ∃ s, r.ModelYear = some s ∧ sqlTrim s ≠ "" ∧ sqlCastInt (sqlTrim s) = y)
      ∧ (yearsBody db).Pairwise (fun a b : Int => b < a) := by
  intro db
  refine ⟨fun y => ?_, yearsBody_pairwise db⟩
  rw [mem_yearsBody]
  constructor
  · rintro ⟨r, hr, hw, hc⟩
    obtain ⟨hg, s, hs, ht⟩ := yearsWhere_iff.1 hw
    refine ⟨r, hr, hg, s, hs, ht, ?_⟩
    rw [hs] at hc
    exact Option.some.inj hc
  · rintro ⟨r, hr, hg, s, hs, ht, hcast⟩
    refine ⟨r, hr, yearsWhere_iff.2 ⟨hg, s, hs, ht⟩, ?_⟩
    rw [hs]
    show some (sqlCastInt (sqlTrim s)) = some y
    rw [hcast]

/-- Witness for C2: `c2_years_exact_sorted` instantiated at a concrete
database and year. -/
theorem c2_witness :
    (0 ∈ yearsBody exDbUnknown ↔
      ∃ r ∈ exDbUnknown, gradeable r = true ∧
        ∃ s, r.ModelYear = some s ∧ sqlTrim s ≠ "" ∧ sqlCastInt (sqlTrim s) = 0)
      ∧ (yearsBody exDbUnknown).Pairwise (fun a b : Int => b < a) :=
  ⟨(c2_years_exact_sorted exDbUnknown).1 0, (c2_years_exact_sorted exDbUnknown).2⟩

/-- Claim C2 counterexample: The claim's soundness direction says every year in
ListYears is the *parsed* year of some gradeable record, where the spec
defines parsing as trim-then-convert with absent/empty/non-numeric excluded
(`specYearOf`). On the database holding only the `ModelYear="unknown"`
record, ListYears returns `[0]`, yet no record's spec-parsed year is an
integer at all (all are `none`). -/
theorem c2_cex_soundness_unknown :
    yearsBody exDbUnknown = [0]
      ∧ exDbUnknown.all (fun r => (specYearOf r).isNone) = true :=
  ⟨by decide, by decide⟩

/-- Claim C7: On internal data-access failure (the handler's `except` branch),
the list endpoints return an empty array with status 500 and `grade` returns
the generic `{"error": "Server error"}` body with status 500 — no partial
result and no cause leaks into the response. (For `makes`/`models`/`grade`
the failure is observable only when parameter validation passes, since
validation short-circuits before the `try` block.) -/
theorem c7_internal_failure_degradation :
    ∀ (e : Unit) (yP mkP mdP : Option String) (y : Int) (mk md : String),
      yearsEndpoint (.error e) = ([], 500)
      ∧ (yP.bind pyToInt = some y → makesEndpoint (.error e) yP = ([], 500))
      ∧ (yP.bind pyToInt = some y → mkP = some mk → mk ≠ "" →
          modelsEndpoint (.error e) yP mkP = ([], 500))
      ∧ (yP.bind pyToInt = some y → mkP = some mk → mk ≠ "" → mdP = some md → md ≠ "" →
          gradeEndpoint (.error e) yP mkP mdP = (.serverError, 500)) := by
  intro e yP mkP mdP y mk md
  refine ⟨rfl, fun hy => ?_, fun hy hmk hne => ?_, fun hy hmk hne1 hmd hne2 => ?_⟩
  · rw [makesEndpoint_eq_valid _ hy]
  · rw [modelsEndpoint_eq_valid _ hy hmk hne]
  · rw [gradeEndpoint_eq_valid _ hy hmk hmd hne1 hne2]

/-- Witness for C7: all four failure responses at concrete requests. -/
theorem c7_witness :
    yearsEndpoint (.error ()) = ([], 500)
      ∧ makesEndpoint (.error ()) (some "2018") = ([], 500)
      ∧ modelsEndpoint (.error ()) (some "2018") (some "Honda") = ([], 500)
      ∧ gradeEndpoint (.error ()) (some "2018") (some "Honda") (some "Civic")
          = (.serverError, 500) := by
  obtain ⟨h1, h2, h3, h4⟩ :=
    c7_internal_failure_degradation () (some "2018") (some "Honda") (some "Civic")
      2018 "Honda" "Civic"
  exact ⟨h1, h2 (by decide), h3 (by decide) rfl (by decide),
    h4 (by decide) rfl (by decide) rfl (by decide)⟩

/-- Claim C9: Requests are pure reads: the connection is opened `mode=ro` and
every statement is a `SELECT`, so running a request leaves the data source
unchanged, and repeating the identical request against the resulting state
yields the identical response and state. -/
theorem c9_readonly_idempotent :
    ∀ (req : Request) (db : List Row),
      (runRequest req db).2 = db ∧
        runRequest req (runRequest req db).2 = runRequest req db :=
  fun _ _ => ⟨rfl, rfl⟩

/-- Claim C10: Every successful `grade` response carries non-null score and
certainty: the matched row has non-null `Score`/`Certainty` (the query
demands it) and `ROUND` of a non-null value is non-null, so the Python
`... if ... is not None else None` fallbacks never produce `None`. -/
theorem c10_grade_ok_nonnull :
    ∀ (dbr : Db) (yP mkP mdP : Option String) (y : Int) (mk md : String)
      (sc ct : Option ℚ) (st : Nat),
      gradeEndpoint dbr yP mkP mdP = (.ok y mk md sc ct, st) →
      sc.isSome = true ∧ ct.isSome = true := by
  intro dbr yP mkP mdP y mk md sc ct st h
  rcases hy : yP.bind pyToInt with _ | y'
  · rw [gradeEndpoint_eq_parse_none dbr hy] at h
    simp at h
  · rcases mkP with _ | mk'
    · rw [gradeEndpoint_eq_falsy dbr hy (Or.inl rfl)] at h
      simp at h
    · by_cases hmk : mk' = ""
      · subst hmk
        rw [gradeEndpoint_eq_falsy dbr hy (Or.inr (Or.inl rfl))] at h
        simp at h
      · rcases mdP with _ | md'
        · rw [gradeEndpoint_eq_falsy dbr hy (Or.inr (Or.inr (Or.inl rfl)))] at h
          simp at h
        · by_cases hmd : md' = ""
          · subst hmd
            rw [gradeEndpoint_eq_falsy dbr hy (Or.inr (Or.inr (Or.inr rfl)))] at h
            simp at h
          · rw [gradeEndpoint_eq_valid dbr hy rfl rfl hmk hmd] at h
            cases dbr with
            | error e => simp at h
            | ok db =>
                have h' : (match gradeQuery db y' mk' md' with
                    | none => ((GradeResp.notFound), 404)
                    | some (sc, ct) => (GradeResp.ok y' mk' md' sc ct, 200))
                    = (GradeResp.ok y mk md sc ct, st) := h
                rcases hq : gradeQuery db y' mk' md' with _ | p
                · rw [hq] at h'
                  simp at h'
                · obtain ⟨sc', ct'⟩ := p
                  rw [hq] at h'
                  simp only [Prod.mk.injEq, GradeResp.ok.injEq] at h'
                  obtain ⟨⟨_, _, _, h4, h5⟩, _⟩ := h'
                  rw [← h4, ← h5]
                  exact gradeQuery_isSome_parts hq

/-- Witness for C10: the hypothesis discharged by `rfl` at the worked example. -/
theorem c10_witness :
    (some (round1 ((783 : ℚ)/100))).isSome = true
      ∧ (some (round1 ((426 : ℚ)/100))).isSome = true :=
  c10_grade_ok_nonnull (.ok exDbCivic) (some "2018") (some "Honda") (some "Civic")
    2018 "Honda" "Civic" (some (round1 (783/100))) (some (round1 (426/100))) 200 rfl

/-- Claim C5: `grade` answers `{"error": "Missing params"}` with status 400
exactly when the parsed year is `None` (absent or unparseable — Flask's
`type=int` maps parse failure to the default `None`) or the make/model
parameter is absent or the empty string; in that case the response does not
depend on the data source (the guard runs before the `try` block), and a
year parameter that fails to parse behaves identically to an absent one. -/
theorem c5_grade_missing_params_iff :
    ∀ (dbr dbr' : Db) (yP mkP mdP : Option String),
      (gradeEndpoint dbr yP mkP mdP = (.missingParams, 400) ↔
        (yP.bind pyToInt = none ∨ mkP = none ∨ mkP = some "" ∨ mdP = none ∨ mdP = some ""))
      ∧ ((yP.bind pyToInt = none ∨ mkP = none ∨ mkP = some "" ∨ mdP = none ∨ mdP = some "") →
          gradeEndpoint dbr yP mkP mdP = gradeEndpoint dbr' yP mkP mdP)
      ∧ (∀ s : String, pyToInt s = none →
          gradeEndpoint dbr (some s) mkP mdP = gradeEndpoint dbr none mkP mdP) := by
  intro dbr dbr' yP mkP mdP
  have key : ∀ d : Db,
      (yP.bind pyToInt = none ∨ mkP = none ∨ mkP = some "" ∨ mdP = none ∨ mdP = some "") →
      gradeEndpoint d yP mkP mdP = (.missingParams, 400) := by
    intro d hinv
    rcases hy : yP.bind pyToInt with _ | y
    · exact gradeEndpoint_eq_parse_none d hy
    · rcases hinv with h | h | h | h | h
      · rw [hy] at h; cases h
      · exact gradeEndpoint_eq_falsy d hy (Or.inl h)
      · exact gradeEndpoint_eq_falsy d hy (Or.inr (Or.inl h))
      · exact gradeEndpoint_eq_falsy d hy (Or.inr (Or.inr (Or.inl h)))
      · exact gradeEndpoint_eq_falsy d hy (Or.inr (Or.inr (Or.inr h)))
  refine ⟨⟨?_, fun hinv => key dbr hinv⟩,
    fun hinv => (key dbr hinv).trans (key dbr' hinv).symm, ?_⟩
  · intro h
    by_contra hinv
    push_neg at hinv
    obtain ⟨h1, h2, h3, h4, h5⟩ := hinv
    rcases hy : yP.bind pyToInt with _ | y
    · exact h1 hy
    · rcases mkP with _ | mk
      · exact h2 rfl
      · rcases mdP with _ | md
        · exact h4 rfl
        · have hmk : mk ≠ "" := fun he => h3 (by rw [he])
          have hmd : md ≠ "" := fun he => h5 (by rw [he])
          rw [gradeEndpoint_eq_valid dbr hy rfl rfl hmk hmd] at h
          cases dbr with
          | error e => simp at h
          | ok db =>
              have h' : (match gradeQuery db y mk md with
                  | none => ((GradeResp.notFound), 404)
                  | some (sc, ct) => (GradeResp.ok y mk md sc ct, 200))
                  = (GradeResp.missingParams, 400) := h
              rcases hq : gradeQuery db y mk md with _ | p
              · rw [hq] at h'
                simp at h'
              · obtain ⟨sc, ct⟩ := p
                rw [hq] at h'
                simp at h'
  · intro s hs
    have h1 : (some s).bind pyToInt = none := hs
    have h2 : (none : Option String).bind pyToInt = none := rfl
    rw [gradeEndpoint_eq_parse_none dbr h1, gradeEndpoint_eq_parse_none dbr h2]

/-- Witness for C5: the spec's example — `grade` called with no `model`
parameter answers the 400 missing-params response. -/
theorem c5_witness :
    gradeEndpoint (.ok exDbCivic) (some "2018") (some "Honda") none
      = (.missingParams, 400) :=
  ((c5_grade_missing_params_iff (.ok exDbCivic) (.error ()) (some "2018") (some "Honda")
      none).1).2 (Or.inr (Or.inr (Or.inr (Or.inl rfl))))

/-- Claim C4 (amended): for a well-formed request, `grade` answers the 404
`{"error": "Not found"}` body precisely when no gradeable record matches the
*cast* year (`CAST(TRIM(ModelYear) AS INTEGER)`, not the spec's strict parse —
see the C4 counterexample), exact make and exact model; and when the database
splits as `db₁ ++ r :: db₂` with no match in `db₁` and `r` matching, the
response is built from `r` — the first physical match (the `LIMIT 1` /
`fetchone()` row). -/
theorem c4_grade_notFound_iff_first_match :
    ∀ (db : List Row) (ys mk md : String) (y : Int),
      pyToInt ys = some y → mk ≠ "" → md ≠ "" →
      ((gradeEndpoint (.ok db) (some ys) (some mk) (some md) = (.notFound, 404) ↔
          ∀ r ∈ db, gradeWhere y mk md r = false)
        ∧ ∀ (db₁ db₂ : List Row) (r : Row), db = db₁ ++ r :: db₂ →
            (∀ r' ∈ db₁, gradeWhere y mk md r' = false) → gradeWhere y mk md r = true →
            gradeEndpoint (.ok db) (some ys) (some mk) (some md)
              = (.ok y mk md (r.Score.map round1) (r.Certainty.map round1), 200)) := by
  intro db ys mk md y hy hne1 hne2
  have hred := gradeEndpoint_eq_valid (Except.ok db) (show (some ys).bind pyToInt = some y from hy) rfl rfl hne1 hne2
  constructor
  · rw [hred]
    show (match gradeQuery db y mk md with
        | none => ((GradeResp.notFound), 404)
        | some (sc, ct) => (GradeResp.ok y mk md sc ct, 200)) = (.notFound, 404) ↔ _
    rcases hq : gradeQuery db y mk md with _ | p
    · exact iff_of_true rfl (gradeQuery_eq_none_iff.1 hq)
    · obtain ⟨sc, ct⟩ := p
      refine iff_of_false (by simp) ?_
      intro hall
      have : gradeQuery db y mk md = none := gradeQuery_eq_none_iff.2 hall
      rw [hq] at this
      cases this
  · intro db₁ db₂ r hsplit hbefore hr
    subst hsplit
    have hf : (db₁ ++ r :: db₂).find? (gradeWhere y mk md) = some r :=
      find?_first hbefore hr
    rw [hred]
    show (match gradeQuery (db₁ ++ r :: db₂) y mk md with
        | none => ((GradeResp.notFound), 404)
        | some (sc, ct) => (GradeResp.ok y mk md sc ct, 200)) = _
    rw [gradeQuery_eq_of_find? hf]

/-- Witness for C4: the first-match clause applied at the worked example
(`exDbCivic = [] ++ rowCivic :: []`). -/
theorem c4_witness :
    gradeEndpoint (.ok exDbCivic) (some "2018") (some "Honda") (some "Civic")
      = (.ok 2018 "Honda" "Civic" (rowCivic.Score.map round1)
          (rowCivic.Certainty.map round1), 200) := by
  obtain ⟨_, hfirst⟩ :=
    c4_grade_notFound_iff_first_match exDbCivic "2018" "Honda" "Civic" 2018
      (by decide) (by decide) (by decide)
  exact hfirst [] [] rowCivic rfl (fun r hr => absurd hr (List.not_mem_nil r)) (by decide)

/-- Claim C4 counterexample. The claim's "matches the parsed year" uses the
spec's year-parsing semantics, under which absent/empty/non-numeric year text
parses to nothing; so on the database holding only the gradeable
`ModelYear="unknown"` record, no gradeable record matches year 0 and the
claim demands NotFound. In fact `GetGrade(0,"Ford","Pinto")` finds the record
via `CAST` semantics and answers 200, not the 404 NotFound — the "iff"
fails right-to-left at this input. -/
theorem c4_cex_strict_parse :
    (gradeEndpoint (.ok exDbUnknown) (some "0") (some "Ford") (some "Pinto")).2 = 200
      ∧ (gradeEndpoint (.ok exDbUnknown) (some "0") (some "Ford") (some "Pinto")).1
          ≠ GradeResp.notFound
      ∧ exDbUnknown.all (fun r => (specYearOf r).isNone) = true :=
  ⟨by decide, by decide, by decide⟩

/-- Claim C3: On success, `grade` echoes the parsed year and the exact make and
model strings of the request, and the score/certainty fields are the matched
record's `Score` and `Certainty` rounded to one decimal place (each value is
an integer multiple of 1/10). Decimals are modelled as rationals. -/
theorem c3_grade_success_shape :
    ∀ (db : List Row) (ys mk md : String) (y : Int) (r : Row),
      pyToInt ys = some y → mk ≠ "" → md ≠ "" →
      db.find? (gradeWhere y mk md) = some r →
      ∃ sv cv : ℚ, r.Score = some sv ∧ r.Certainty = some cv ∧
        gradeEndpoint (.ok db) (some ys) (some mk) (some md)
          = (.ok y mk md (some (round1 sv)) (some (round1 cv)), 200) ∧
        (∃ k : ℤ, round1 sv = (k : ℚ) / 10) ∧ ∃ k : ℤ, round1 cv = (k : ℚ) / 10 := by
  intro db ys mk md y r hy hne1 hne2 hf
  obtain ⟨sv, cv, hsv, hcv⟩ := gradeWhere_gradeable (List.find?_some hf)
  refine ⟨sv, cv, hsv, hcv, ?_,
    ⟨roundHalfAway (sv * 10), rfl⟩, ⟨roundHalfAway (cv * 10), rfl⟩⟩
  rw [gradeEndpoint_eq_valid (Except.ok db) (show (some ys).bind pyToInt = some y from hy) rfl rfl hne1 hne2]
  show (match gradeQuery db y mk md with
      | none => ((GradeResp.notFound), 404)
      | some (sc, ct) => (GradeResp.ok y mk md sc ct, 200)) = _
  rw [gradeQuery_eq_of_find? hf, hsv, hcv]
  rfl

/-- Witness for C3: the spec's worked example — Score 7.83 rounds to 7.8 and
Certainty 4.26 rounds to 4.3, echoed with the request's year/make/model. -/
theorem c3_witness_civic :
    gradeEndpoint (.ok exDbCivic) (some "2018") (some "Honda") (some "Civic")
      = (.ok 2018 "Honda" "Civic" (some (39/5)) (some (43/10)), 200)
      ∧ (39 : ℚ)/5 = 7.8 ∧ (43 : ℚ)/10 = 4.3 := by
  obtain ⟨sv, cv, hsv, hcv, heq, _, _⟩ :=
    c3_grade_success_shape exDbCivic "2018" "Honda" "Civic" 2018 rowCivic
      (by decide) (by decide) (by decide) rfl
  have hsv' : sv = 783/100 := (Option.some.inj (show some ((783 : ℚ)/100) = some sv from hsv)).symm
  have hcv' : cv = 426/100 := (Option.some.inj (show some ((426 : ℚ)/100) = some cv from hcv)).symm
  subst hsv'
  subst hcv'
  refine ⟨?_, by norm_num, by norm_num⟩
  rw [heq]
  have h1 : round1 ((783 : ℚ)/100) = 39/5 := by
    unfold round1 roundHalfAway
    rw [if_pos (by norm_num)]
    norm_num
  have h2 : round1 ((426 : ℚ)/100) = 43/10 := by
    unfold round1 roundHalfAway
    rw [if_pos (by norm_num)]
    norm_num
  rw [h1, h2]

/-- Claim C6 (amended): `models` returns an empty array without consulting the
data source when the year is absent/unparseable or the make parameter is
absent or the *empty string* — the guard is Python's `not make`, which does
not trim, so a whitespace-only make is NOT short-circuited: the query runs
with it as an exact `Make` value. When the query runs, the result is exactly
the distinct `Model` values of gradeable records with matching cast year and
exact make, sorted ascending (BINARY collation, NULL first) with no
duplicates. -/
theorem c6_models_amended :
    ∀ (dbr dbr' : Db) (yP mkP : Option String),
      ((yP.bind pyToInt = none ∨ mkP = none ∨ mkP = some "") →
        modelsEndpoint dbr yP mkP = ([], 200)
          ∧ modelsEndpoint dbr yP mkP = modelsEndpoint dbr' yP mkP)
      ∧ (∀ (db : List Row) (y : Int) (mk : String),
          yP.bind pyToInt = some y → mkP = some mk → mk ≠ "" →
          modelsEndpoint (.ok db) yP mkP = (modelsQuery db y mk, 200)
          ∧ (∀ m : Option String, m ∈ modelsQuery db y mk ↔
              ∃ r ∈ db, gradeable r = true ∧ castTrimYear r.ModelYear = some y
                ∧ r.Make = some mk ∧ r.Model = m)
          ∧ (modelsQuery db y mk).Pairwise (fun a b => optStrLe a b = true ∧ a ≠ b)) := by
  intro dbr dbr' yP mkP
  refine ⟨fun h => ⟨modelsEndpoint_eq_invalid dbr h,
    (modelsEndpoint_eq_invalid dbr h).trans (modelsEndpoint_eq_invalid dbr' h).symm⟩, ?_⟩
  intro db y mk hy hmk hne
  refine ⟨?_, fun m => ?_, modelsQuery_pairwise db y mk⟩
  · rw [modelsEndpoint_eq_valid _ hy hmk hne]
  · rw [mem_modelsQuery]
    constructor
    · rintro ⟨r, hr, hw, hm⟩
      obtain ⟨hc, hmk2, hg⟩ := modelsWhere_iff.1 hw
      exact ⟨r, hr, hg, hc, hmk2, hm⟩
    · rintro ⟨r, hr, hg, hc, hmk2, hm⟩
      exact ⟨r, hr, modelsWhere_iff.2 ⟨hc, hmk2, hg⟩, hm⟩

/-- Witness for C6: the amended theorem's query clause at a concrete database
(whitespace-only make, which does reach the data source). -/
theorem c6_witness :
    modelsEndpoint (.ok exDbSpace) (some "2018") (some " ")
      = (modelsQuery exDbSpace 2018 " ", 200) :=
  ((c6_models_amended (.ok exDbSpace) (.error ()) (some "2018") (some " ")).2
    exDbSpace 2018 " " (by decide) rfl (by decide)).1

/-- Claim C6 counterexample: The claim says a whitespace-only make is treated
like an empty one: empty result, data source not queried. In fact, with a
gradeable record whose `Make` is a single space, `ListModels(2018, " ")`
returns `["Coupe"]`; and that the data source IS consulted shows in the
failure path: on data-source error the endpoint answers `([], 500)`, not the
claimed no-query `([], 200)`. -/
theorem c6_cex_whitespace_make :
    (modelsEndpoint (.ok exDbSpace) (some "2018") (some " ")).1 = [some "Coupe"]
      ∧ [some "Coupe"] ≠ ([] : List (Option String))
      ∧ modelsEndpoint (.error ()) (some "2018") (some " ") = ([], 500) :=
  ⟨by decide, by decide, by decide⟩

/-- Claim C8 (amended): `makes` returns an empty array (status 200) without
consulting the data source when the year is absent or unparseable; otherwise
it returns exactly the distinct `Make` values of gradeable records whose
*cast* year (`CAST(TRIM(ModelYear) AS INTEGER)`, not the spec's strict parse —
see the C8 counterexample) equals the requested year, sorted ascending
(BINARY collation, NULL first) with no duplicates. -/
theorem c8_makes_spec :
    ∀ (dbr dbr' : Db) (yP : Option String),
      (yP.bind pyToInt = none →
        makesEndpoint dbr yP = ([], 200)
          ∧ makesEndpoint dbr yP = makesEndpoint dbr' yP)
      ∧ (∀ (db : List Row) (y : Int), yP.bind pyToInt = some y →
          makesEndpoint (.ok db) yP = (makesQuery db y, 200)
          ∧ (∀ m : Option String, m ∈ makesQuery db y ↔
              ∃ r ∈ db, gradeable r = true ∧ castTrimYear r.ModelYear = some y ∧ r.Make = m)
          ∧ (makesQuery db y).Pairwise (fun a b => optStrLe a b = true ∧ a ≠ b)) := by
  intro dbr dbr' yP
  refine ⟨fun h => ⟨makesEndpoint_eq_invalid dbr h,
    (makesEndpoint_eq_invalid dbr h).trans (makesEndpoint_eq_invalid dbr' h).symm⟩, ?_⟩
  intro db y hy
  refine ⟨?_, fun m => ?_, makesQuery_pairwise db y⟩
  · rw [makesEndpoint_eq_valid _ hy]
  · rw [mem_makesQuery]
    constructor
    · rintro ⟨r, hr, hw, hm⟩
      obtain ⟨hc, hg⟩ := makesWhere_iff.1 hw
      exact ⟨r, hr, hg, hc, hm⟩
    · rintro ⟨r, hr, hg, hc, hm⟩
      exact ⟨r, hr, makesWhere_iff.2 ⟨hc, hg⟩, hm⟩

/-- Witness for C8: the query clause of `c8_makes_spec` at the worked example. -/
theorem c8_witness :
    makesEndpoint (.ok exDbCivic) (some "2018") = (makesQuery exDbCivic 2018, 200)
      ∧ (makesQuery exDbCivic 2018).Pairwise (fun a b => optStrLe a b = true ∧ a ≠ b) := by
  obtain ⟨h1, _, h3⟩ :=
    (c8_makes_spec (.ok exDbCivic) (.error ()) (some "2018")).2 exDbCivic 2018 (by decide)
  exact ⟨h1, h3⟩

/-- Claim C8 counterexample. The claim says ListMakes(Y) is exactly the
distinct makes of gradeable records whose *parsed* year equals Y, with
parsing as the spec defines it (absent/empty/non-numeric year text parses to
nothing). On the database holding only the gradeable `ModelYear="unknown"`
record, no gradeable record has a parsed year at all, so the claimed set for
year 0 is empty — yet `ListMakes(0)` returns `["Ford"]`, because the code
matches on the `CAST` value 0. -/
theorem c8_cex_strict_parse :
    (makesEndpoint (.ok exDbUnknown) (some "0")).1 = [some "Ford"]
      ∧ [some "Ford"] ≠ ([] : List (Option String))
      ∧ exDbUnknown.all (fun r => (specYearOf r).isNone) = true :=
  ⟨by decide, by decide, by decide⟩

end CarGrader
